import Mathlib

/-!
Shallow embedding of the library-management backend's availability /
borrow-return core (src/api/v1/books/{models,repository,routing}.py and
src/api/v1/transactions/{models,repository,routing}.py).

Modelling conventions:
* A database state (`DB`) is the lists of persisted rows plus the id sets
  of the referenced `user` and `author` tables (the core only consults
  their existence, through foreign keys).
* Timestamps are `Nat` (an abstract clock value passed in by the caller
  where the source calls `datetime.now`); `created_at`/`updated_at`
  bookkeeping columns are omitted — no claim mentions them.
* Machine integers: Python ints are unbounded, so copy counts are `Int`
  (counts coming out of SQL `COUNT` are `Nat`, cast where the source does
  arithmetic that could in principle go negative).
* Each mutating operation returns `DB × Except Err _`: the source wraps
  every mutation in a transaction and calls `db.rollback()` on each error
  path, so an error outcome carries the unchanged pre-state.
* SQL semantics: `.first()` is `List.find?`; `COUNT` over a filtered
  query is `List.length ∘ List.filter`; the `COUNT` over the
  Book ⋈ Transaction join in `calculate_available_copies` counts
  (book-row, transaction-row) pairs and is written as a sum of per
  transaction match counts; `x or 1` / `x or 0` on a count is
  `if x = 0 then 1 else x` / the identity.
-/

namespace LibraryMS

/-- One row of the `book` table (src/api/v1/books/models.py, `Book`).
Each row represents one physical copy; `total_copies` and
`available_copies` are stored counter columns the availability engine
never reads. -/
structure Book where
  id : Nat
  title : String
  isbn : Option String
  published_year : Option Int
  total_copies : Int
  available_copies : Int
  author_id : Nat
  description : Option String
deriving DecidableEq, Repr

/-- One row of the `transaction` table
(src/api/v1/transactions/models.py, `Transaction`). -/
structure Transaction where
  id : Nat
  user_id : Nat
  book_id : Nat
  borrow_date : Nat
  return_date : Option Nat
  is_returned : Bool
deriving DecidableEq, Repr

/-- Payload of `TransactionCreate` (user, book, borrow date). -/
structure TransactionCreate where
  user_id : Nat
  book_id : Nat
  borrow_date : Nat
deriving DecidableEq, Repr

/-- Payload of `TransactionUpdate`: both fields optional, and pydantic's
`exclude_unset` distinguishes "absent" (outer `none`) from an explicit
null (`some none` for `return_date`). -/
structure TransactionUpdate where
  return_date : Option (Option Nat)
  is_returned : Option Bool
deriving DecidableEq, Repr

/-- Payload of `BookCreate`. -/
structure BookCreate where
  title : String
  isbn : Option String
  published_year : Option Int
  total_copies : Int
  available_copies : Int
  author_id : Nat
  description : Option String
deriving DecidableEq, Repr

/-- The persisted state the core reads and writes: book rows, transaction
rows, and the id sets of the `user` and `author` tables (consulted only
through foreign-key constraints). -/
structure DB where
  books : List Book
  transactions : List Transaction
  users : List Nat
  authors : List Nat
deriving DecidableEq, Repr

/-- Error taxonomy across the modelled endpoints: `ValueError`s raised by
the repositories (mapped to 400 by the routers), 404s, and the 500 class. -/
inductive Err where
  /-- Raised as `ValueError("No available copies of this book to borrow")` — the
  spec's `ConflictError`. -/
  | noAvailableCopies
  /-- Raised as `ValueError("User not found")` (FK violation on `user_id`). -/
  | userNotFound
  /-- Raised as `ValueError("Book not found")` (FK violation on `book_id`). -/
  | bookNotFound
  /-- Raised as `ValueError("Author with the specified ID does not exist")`. -/
  | authorNotFound
  /-- Raised as `ValueError("Data integrity error: ...")`. -/
  | dataIntegrity
  /-- HTTP 400 `"Book with ISBN ... already exists"` from the book router. -/
  | duplicateIsbn
  /-- Raised as `ValueError("Transaction not found")` / router 404. -/
  | notFound
  /-- Raised as `ValueError("Book already returned")` — the spec's `ConflictError`. -/
  | alreadyReturned
  /-- An uncaught Python exception surfacing as HTTP 500. -/
  | typeError
deriving DecidableEq, Repr

instance exceptDecEq {ε α : Type} [DecidableEq ε] [DecidableEq α] :
    DecidableEq (Except ε α) := fun a b =>
  match a, b with
  | .error e, .error f =>
    if h : e = f then .isTrue (by rw [h]) else .isFalse (by simp [h])
  | .error _, .ok _ => .isFalse (by simp)
  | .ok _, .error _ => .isFalse (by simp)
  | .ok x, .ok y =>
    if h : x = y then .isTrue (by rw [h]) else .isFalse (by simp [h])

/-- Embeds `db.query(Book).filter(Book.id == book_id).first()`. -/
def findBook (db : DB) (book_id : Nat) : Option Book :=
  db.books.find? (fun b => b.id == book_id)

/-- Embeds `db.query(Transaction).filter(Transaction.id == tid).first()`. -/
def findTxn (db : DB) (tid : Nat) : Option Transaction :=
  db.transactions.find? (fun t => t.id == tid)

/-- Embeds `db.query(func.count(Book.id)).filter(Book.isbn == isbn).scalar()`:
the number of book rows carrying this ISBN. -/
def isbnCount (db : DB) (i : String) : Nat :=
  (db.books.filter (fun b => b.isbn == some i)).length

/-- Contribution of one transaction row to the Book ⋈ Transaction join of
`calculate_available_copies`: the number of book rows of the given ISBN
it pairs with, or 0 if the transaction is closed. -/
def openWeight (books : List Book) (i : String) (t : Transaction) : Nat :=
  if t.is_returned then 0
  else (books.filter (fun b => b.id == t.book_id && b.isbn == some i)).length

/-- The `borrowed` count of `calculate_available_copies`:
`COUNT` over the join of book rows of this ISBN with open transactions. -/
def openJoinCount (db : DB) (i : String) : Nat :=
  (db.transactions.map (openWeight db.books i)).sum

/-- Python truthiness of the `isbn` column: `not book.isbn` is true both
for SQL NULL and for the empty string. -/
def isbnBlank : Option String → Bool
  | none => true
  | some s => s == ""

/-- Embeds `calculate_total_copies` (src/api/v1/books/repository.py:10-21):
count of rows sharing the book's ISBN; 1 when the id is unknown, the
ISBN is blank, or the count is falsy (`count or 1`). -/
def calculate_total_copies (db : DB) (book_id : Nat) : Int :=
  match findBook db book_id with
  | none => 1
  | some b =>
    if isbnBlank b.isbn then 1
    else
      match b.isbn with
      | none => 1
      | some i => let c := isbnCount db i; if c = 0 then 1 else (c : Int)

/-- Embeds `calculate_available_copies` (src/api/v1/books/repository.py:24-48):
`max(0, total − borrowed)` where `total` is the row count of the ISBN
(`or 1`) and `borrowed` the open-loan join count (`or 0`); 1 when the id
is unknown or the ISBN blank. -/
def calculate_available_copies (db : DB) (book_id : Nat) : Int :=
  match findBook db book_id with
  | none => 1
  | some b =>
    if isbnBlank b.isbn then 1
    else
      match b.isbn with
      | none => 1
      | some i =>
        let total : Int := (let c := isbnCount db i; if c = 0 then 1 else (c : Int))
        let borrowed : Int := (openJoinCount db i : Int)
        max 0 (total - borrowed)

/-- Auto-increment primary key for a new transaction row. -/
def freshTid (db : DB) : Nat :=
  (db.transactions.map (fun t => t.id)).foldr max 0 + 1

/-- Auto-increment primary key for a new book row. -/
def freshBid (db : DB) : Nat :=
  (db.books.map (fun b => b.id)).foldr max 0 + 1

/-- Embeds `create_transaction` (src/api/v1/transactions/repository.py:9-42):
gate on `calculate_available_copies`, then insert an open transaction.
The insert raises `IntegrityError` when a foreign key is violated; the
source classifies the error message testing `"user_id"` before
`"book_id"`, so a missing user is reported first. Every error path rolls
back, returning the pre-state. -/
def create_transaction (db : DB) (d : TransactionCreate) :
    DB × Except Err Transaction :=
  let available := calculate_available_copies db d.book_id
  if available ≤ 0 then (db, .error .noAvailableCopies)
  else if d.user_id ∉ db.users then (db, .error .userNotFound)
  else if (findBook db d.book_id).isNone then (db, .error .bookNotFound)
  else
    let t : Transaction :=
      { id := freshTid db, user_id := d.user_id, book_id := d.book_id,
        borrow_date := d.borrow_date, return_date := none, is_returned := false }
    ({ db with transactions := db.transactions ++ [t] }, .ok t)

/-- The mutation `return_book` applies to the transaction it fetched:
`return_date = now`, `is_returned = True`. -/
def setReturned (now : Nat) (t : Transaction) : Transaction :=
  { t with return_date := some now, is_returned := true }

/-- Persist `setReturned` on the row `.first()` found: replace the first
list element with the given id (ids are unique in SQL, so first-match
update is the row update). -/
def updateFirstTxn (tid : Nat) (now : Nat) : List Transaction → List Transaction
  | [] => []
  | t :: rest =>
    if t.id == tid then setReturned now t :: rest
    else t :: updateFirstTxn tid now rest

/-- Embeds `return_book` (src/api/v1/transactions/repository.py:110-132):
404 when the id is unknown, `"Book already returned"` when the fetched
transaction is already closed, otherwise close it at time `now`. -/
def return_book (db : DB) (tid : Nat) (now : Nat) :
    DB × Except Err Transaction :=
  match findTxn db tid with
  | none => (db, .error .notFound)
  | some t =>
    if t.is_returned then (db, .error .alreadyReturned)
    else
      ({ db with transactions := updateFirstTxn tid now db.transactions },
       .ok (setReturned now t))

/-- Apply a `TransactionUpdate` the way `model_dump(exclude_unset=True)`
plus `setattr` does: only fields the caller actually sent are written. -/
def applyTxnUpdate (u : TransactionUpdate) (t : Transaction) : Transaction :=
  let t1 := match u.return_date with
    | none => t
    | some v => { t with return_date := v }
  match u.is_returned with
  | none => t1
  | some v => { t1 with is_returned := v }

/-- Persist `applyTxnUpdate` on the row with the given id. -/
def updateTxnRow (tid : Nat) (u : TransactionUpdate) :
    List Transaction → List Transaction
  | [] => []
  | t :: rest =>
    if t.id == tid then applyTxnUpdate u t :: rest
    else t :: updateTxnRow tid u rest

/-- The admin PATCH flow: `update_transaction_endpoint`
(src/api/v1/transactions/routing.py:132-154) fetches the row (404 when
missing) and `update_transaction`
(src/api/v1/transactions/repository.py:92-107) writes exactly the fields
sent, with no state-machine precondition. -/
def update_transaction (db : DB) (tid : Nat) (u : TransactionUpdate) :
    DB × Except Err Transaction :=
  match findTxn db tid with
  | none => (db, .error .notFound)
  | some t =>
    ({ db with transactions := updateTxnRow tid u db.transactions },
     .ok (applyTxnUpdate u t))

/-- Embeds `get_book_by_isbn` (src/api/v1/books/repository.py:82-86). -/
def get_book_by_isbn (db : DB) (i : String) : Option Book :=
  db.books.find? (fun b => b.isbn == some i)

/-- Embeds `create_book` (src/api/v1/books/repository.py:51-72): a plain insert;
`IntegrityError` surfaces as "Author ... does not exist" when the
`author_id` foreign key is violated (the source tests that pattern
first), and as a generic data-integrity error otherwise — the schema
(src/api/v1/books/models.py:12) declares `isbn` UNIQUE, so a duplicate
non-NULL ISBN trips the latter. -/
def create_book (db : DB) (d : BookCreate) : DB × Except Err Book :=
  if d.author_id ∉ db.authors then (db, .error .authorNotFound)
  else if d.isbn.isSome && db.books.any (fun b => b.isbn == d.isbn) then
    (db, .error .dataIntegrity)
  else
    let b : Book :=
      { id := freshBid db, title := d.title, isbn := d.isbn,
        published_year := d.published_year, total_copies := d.total_copies,
        available_copies := d.available_copies, author_id := d.author_id,
        description := d.description }
    ({ db with books := db.books ++ [b] }, .ok b)

/-- Embeds `create_book_endpoint` (src/api/v1/books/routing.py:14-37): when the
body carries a truthy ISBN and a row with that ISBN already exists, the
request is rejected with 400 "already exists"; otherwise it falls through
to `create_book`. -/
def create_book_endpoint (db : DB) (d : BookCreate) : DB × Except Err Book :=
  match d.isbn with
  | some i =>
    if i ≠ "" then
      match get_book_by_isbn db i with
      | some _ => (db, .error .duplicateIsbn)
      | none => create_book db d
    else create_book db d
  | none => create_book db d

/-- Embeds `is_book_borrowed` (src/api/v1/books/repository.py:181-185): some
copy of the book's ISBN is out iff the derived available count is below
the derived total. -/
def is_book_borrowed (db : DB) (book : Book) : Bool :=
  calculate_available_copies db book.id < calculate_total_copies db book.id

/-- The dict `check_book_availability` returns. -/
structure AvailabilityInfo where
  book_id : Nat
  title : String
  total_copies : Int
  available_copies : Int
  borrowed_copies : Int
  is_available : Bool
deriving DecidableEq, Repr

/-- Embeds `check_book_availability` (src/api/v1/books/repository.py:166-178):
availability report computed on demand from the two derived counts. -/
def check_book_availability (db : DB) (book : Book) : AvailabilityInfo :=
  let total := calculate_total_copies db book.id
  let available := calculate_available_copies db book.id
  { book_id := book.id, title := book.title, total_copies := total,
    available_copies := available, borrowed_copies := total - available,
    is_available := available > 0 }

/-- Embeds `delete_book_endpoint` (src/api/v1/books/routing.py:105-126): 404
when the id is unknown; otherwise line 119 calls `is_book_borrowed(book)`
— omitting the required `db` argument — so Python raises
`TypeError: is_book_borrowed() missing 1 required positional argument`
before any borrow check or deletion runs, and FastAPI surfaces a 500.
The `delete_book(db, book)` call on line 125 is unreachable. -/
def delete_book_endpoint (db : DB) (book_id : Nat) : DB × Except Err Unit :=
  match findBook db book_id with
  | none => (db, .error .notFound)
  | some _ => (db, .error .typeError)

/-- A borrow or return request, the two ledger mutations the claims about
reachable states quantify over. -/
inductive Op where
  | borrow (d : TransactionCreate)
  | ret (tid : Nat) (now : Nat)
deriving DecidableEq, Repr

/-- The post-state of one ledger operation (errors roll back). -/
def applyOp (db : DB) : Op → DB
  | .borrow d => (create_transaction db d).1
  | .ret tid now => (return_book db tid now).1

/-- The post-state of a sequence of ledger operations. -/
def applyOps (db : DB) (ops : List Op) : DB :=
  ops.foldl applyOp db

/-- Number of open loans held against one specific copy (book row). -/
def openLoansOnCopy (db : DB) (book_id : Nat) : Nat :=
  (db.transactions.filter (fun t => t.book_id == book_id && !t.is_returned)).length

/-- A book row with its stored counter columns blanked: what remains is
exactly the data the availability engine may read. -/
def eraseCounters (b : Book) : Book :=
  { b with total_copies := 0, available_copies := 0 }

/-- A state up to the stored counter columns of every book row. -/
def proj (db : DB) : DB :=
  { db with books := db.books.map eraseCounters }

/-- totalCopies as the spec words it: "count of Copy rows sharing `isbn`;
defaults to 1 if the title/ISBN is unknown" (an unknown ISBN has no rows,
and a blank ISBN identifies no title). -/
def specTotalCopies (db : DB) (i : String) : Int :=
  let c := isbnCount db i
  if c = 0 then 1 else (c : Int)

/-- availableCopies as the spec words it: "totalCopies(isbn) −
countOpenLoans(isbn), floored at 0", where countOpenLoans "joins Copy
rows of that ISBN against Loan rows where `is_returned == false`". -/
def specAvailableCopies (db : DB) (i : String) : Int :=
  max 0 (specTotalCopies db i - (openJoinCount db i : Int))

/-! ### Concrete fixtures used by witnesses and counterexamples -/

/-- A copy of ISBN "111" with stale stored counters. -/
def book111 : Book :=
  { id := 1, title := "Dune", isbn := some "111", published_year := some 1965,
    total_copies := 1, available_copies := 1, author_id := 3,
    description := none }

/-- A second copy sharing ISBN "222". -/
def book222a : Book :=
  { id := 1, title := "Emma", isbn := some "222", published_year := none,
    total_copies := 1, available_copies := 1, author_id := 3,
    description := none }

/-- Another copy sharing ISBN "222". -/
def book222b : Book :=
  { id := 2, title := "Emma", isbn := some "222", published_year := none,
    total_copies := 1, available_copies := 1, author_id := 3,
    description := none }

/-- One copy of "111", user 7, author 3, empty ledger. -/
def dbOneCopy : DB :=
  { books := [book111], transactions := [], users := [7, 8], authors := [3] }

/-- Two copies of "222", users 7 and 8, empty ledger. -/
def dbTwoCopies : DB :=
  { books := [book222a, book222b], transactions := [], users := [7, 8],
    authors := [3] }

/-! ### C1 -/

/-- C1: for every state — hence after any sequence of borrow, return,
create-copy and delete-copy operations — and every book id,
`0 ≤ calculate_available_copies ≤ calculate_total_copies`. -/
theorem available_copies_bounds (db : DB) (book_id : Nat) :
    0 ≤ calculate_available_copies db book_id ∧
    calculate_available_copies db book_id ≤ calculate_total_copies db book_id := by
  unfold calculate_available_copies calculate_total_copies
  cases h : findBook db book_id with
  | none => simp [h]
  | some b =>
    simp only [h]
    cases hib : isbnBlank b.isbn with
    | true => simp [hib]
    | false =>
      simp only [hib, Bool.false_eq_true, if_false]
      cases hisbn : b.isbn with
      | none => simp
      | some i =>
        dsimp only
        refine ⟨le_max_left _ _, max_le ?_ ?_⟩
        · split <;> omega
        · have hb0 : (0 : Int) ≤ (openJoinCount db i : Int) :=
            Int.natCast_nonneg _
          exact sub_le_self _ hb0

/-! ### C7 -/

/-- C7: the derived counts match the spec's formulas. For a book whose
row exists and carries a real (non-blank) ISBN, `calculate_total_copies`
is the count of rows sharing the ISBN (defaulted to 1 when falsy) and
`calculate_available_copies` is that total minus the open-loan join
count, floored at 0; for an unknown id or a blank ISBN both functions
return the documented degenerate default 1. -/
theorem derived_counts_match_spec (db : DB) (book_id : Nat) :
    (∀ b, findBook db book_id = some b → ∀ i, b.isbn = some i → i ≠ "" →
      calculate_total_copies db book_id = specTotalCopies db i ∧
      calculate_available_copies db book_id = specAvailableCopies db i) ∧
    (findBook db book_id = none →
      calculate_total_copies db book_id = 1 ∧
      calculate_available_copies db book_id = 1) ∧
    (∀ b, findBook db book_id = some b → isbnBlank b.isbn = true →
      calculate_total_copies db book_id = 1 ∧
      calculate_available_copies db book_id = 1) := by
  refine ⟨?_, ?_, ?_⟩
  · intro b hb i hi hne
    have hblank : isbnBlank (some i) = false := by
      simpa [isbnBlank] using hne
    unfold calculate_total_copies calculate_available_copies
    simp only [hb, hi, hblank, Bool.false_eq_true, if_false]
    exact ⟨rfl, rfl⟩
  · intro h
    unfold calculate_total_copies calculate_available_copies
    simp [h]
  · intro b hb hblank
    unfold calculate_total_copies calculate_available_copies
    simp [hb, hblank]

/-- Witness for C7 at a concrete state: one copy of ISBN "111". -/
theorem derived_counts_match_spec_witness :
    calculate_total_copies dbOneCopy 1 = specTotalCopies dbOneCopy "111" ∧
    calculate_available_copies dbOneCopy 1 = specAvailableCopies dbOneCopy "111" :=
  (derived_counts_match_spec dbOneCopy 1).1 book111 (by decide) "111"
    (by decide) (by decide)

/-! ### C2 -/

/-- C2: `create_transaction` inserts a fresh open loan carrying the given
user, book and borrow date when the target book's derived availability is
positive (and both references exist); it fails with the "no available
copies" conflict when availability is non-positive, with "User not found"
/ "Book not found" when the corresponding row is missing, and every
failure returns the rolled-back, unchanged ledger. -/
theorem create_transaction_spec (db : DB) (d : TransactionCreate) :
    (0 < calculate_available_copies db d.book_id →
      d.user_id ∈ db.users →
      (findBook db d.book_id).isSome →
      create_transaction db d =
        ({ db with transactions := db.transactions ++
            [{ id := freshTid db, user_id := d.user_id, book_id := d.book_id,
               borrow_date := d.borrow_date, return_date := none,
               is_returned := false }] },
         .ok { id := freshTid db, user_id := d.user_id, book_id := d.book_id,
               borrow_date := d.borrow_date, return_date := none,
               is_returned := false })) ∧
    (calculate_available_copies db d.book_id ≤ 0 →
      create_transaction db d = (db, .error .noAvailableCopies)) ∧
    (0 < calculate_available_copies db d.book_id → d.user_id ∉ db.users →
      create_transaction db d = (db, .error .userNotFound)) ∧
    (0 < calculate_available_copies db d.book_id → d.user_id ∈ db.users →
      findBook db d.book_id = none →
      create_transaction db d = (db, .error .bookNotFound)) ∧
    (∀ e, (create_transaction db d).2 = Except.error e →
      (create_transaction db d).1 = db) := by
  refine ⟨?_, ?_, ?_, ?_, ?_⟩ <;> unfold create_transaction
  · intro h1 h2 h3
    have h3' : ¬ ((findBook db d.book_id).isNone = true) := by
      simp only [Option.isNone_iff_eq_none]
      exact Option.isSome_iff_ne_none.mp h3
    rw [if_neg (not_le.mpr h1), if_neg (not_not_intro h2), if_neg h3']
  · intro h1
    rw [if_pos h1]
  · intro h1 h2
    rw [if_neg (not_le.mpr h1), if_pos h2]
  · intro h1 h2 h3
    rw [if_neg (not_le.mpr h1), if_neg (not_not_intro h2),
      if_pos (Option.isNone_iff_eq_none.mpr h3)]
  · intro e he
    by_cases h1 : calculate_available_copies db d.book_id ≤ 0
    · rw [if_pos h1]
    · rw [if_neg h1] at he ⊢
      by_cases h2 : d.user_id ∉ db.users
      · rw [if_pos h2]
      · rw [if_neg h2] at he ⊢
        by_cases h3 : (findBook db d.book_id).isNone = true
        · rw [if_pos h3]
        · rw [if_neg h3] at he
          simp at he

/-- Witness for C2: borrowing the single free copy of "111" as user 7
appends exactly one open loan. -/
theorem create_transaction_spec_witness :
    0 < calculate_available_copies dbOneCopy 1 ∧
    create_transaction dbOneCopy ⟨7, 1, 5⟩ =
      ({ dbOneCopy with transactions := dbOneCopy.transactions ++
          [{ id := freshTid dbOneCopy, user_id := 7, book_id := 1,
             borrow_date := 5, return_date := none, is_returned := false }] },
       .ok { id := freshTid dbOneCopy, user_id := 7, book_id := 1,
             borrow_date := 5, return_date := none, is_returned := false }) :=
  ⟨by decide,
   (create_transaction_spec dbOneCopy ⟨7, 1, 5⟩).1 (by decide) (by decide)
     (by decide)⟩

/-! ### C3 -/

/-- Updating the first row with the given id leaves `find?` on that id
pointing at the closed version of the row it found before. -/
theorem findTxn_updateFirstTxn (l : List Transaction) (tid now : Nat) :
    (updateFirstTxn tid now l).find? (fun t => t.id == tid) =
      (l.find? (fun t => t.id == tid)).map (setReturned now) := by
  induction l with
  | nil => rfl
  | cons t rest ih =>
    cases h : (t.id == tid) with
    | true =>
      unfold updateFirstTxn
      rw [if_pos h]
      have hs : ((setReturned now t).id == tid) = true := h
      rw [List.find?_cons_of_pos (p := fun t => t.id == tid) rest hs,
        List.find?_cons_of_pos (p := fun t => t.id == tid) rest h]
      rfl
    | false =>
      unfold updateFirstTxn
      rw [if_neg (by simp [h])]
      have hs : ¬ (((fun t => t.id == tid) t) = true) := by simp [h]
      rw [List.find?_cons_of_neg (p := fun t => t.id == tid)
          (updateFirstTxn tid now rest) hs,
        List.find?_cons_of_neg (p := fun t => t.id == tid) rest hs]
      exact ih

/-- C3: `return_book` is 404 on an unknown loan id; on an open loan it
succeeds, closing the loan with `return_date = now` and
`is_returned = true`; on a closed loan it fails with the "already
returned" conflict leaving the state unchanged — in particular a second
return of a loan just returned is rejected, not a no-op. -/
theorem return_book_spec (db : DB) (tid now : Nat) :
    (findTxn db tid = none → return_book db tid now = (db, .error .notFound)) ∧
    (∀ t, findTxn db tid = some t → t.is_returned = true →
      return_book db tid now = (db, .error .alreadyReturned)) ∧
    (∀ t, findTxn db tid = some t → t.is_returned = false →
      return_book db tid now =
        ({ db with transactions := updateFirstTxn tid now db.transactions },
         .ok (setReturned now t)) ∧
      (setReturned now t).is_returned = true ∧
      (setReturned now t).return_date = some now) ∧
    (∀ db2 t2, return_book db tid now = (db2, .ok t2) →
      ∀ now2, return_book db2 tid now2 = (db2, .error .alreadyReturned)) := by
  refine ⟨?_, ?_, ?_, ?_⟩
  · intro h
    unfold return_book
    rw [h]
  · intro t ht hr
    unfold return_book
    simp only [ht]
    rw [if_pos hr]
  · intro t ht hr
    refine ⟨?_, rfl, rfl⟩
    unfold return_book
    simp only [ht]
    rw [if_neg (by simp [hr])]
  · intro db2 t2 he now2
    unfold return_book at he
    cases hf : findTxn db tid with
    | none => rw [hf] at he; simp at he
    | some t =>
      simp only [hf] at he
      by_cases hr : t.is_returned
      · rw [if_pos hr] at he; simp at he
      · rw [if_neg hr] at he
        rw [Prod.mk.injEq] at he
        obtain ⟨hdb2, -⟩ := he
        subst hdb2
        unfold return_book
        have hfind : findTxn
            { db with transactions := updateFirstTxn tid now db.transactions }
            tid = some (setReturned now t) := by
          unfold findTxn
          dsimp only
          rw [findTxn_updateFirstTxn]
          unfold findTxn at hf
          rw [hf]
          rfl
        simp only [hfind]
        rw [if_pos (show (setReturned now t).is_returned = true from rfl)]

/-- User 7's open loan on copy 1 of "111", taken out at time 5. -/
def txnOpen : Transaction :=
  { id := 1, user_id := 7, book_id := 1, borrow_date := 5,
    return_date := none, is_returned := false }

/-- One copy of "111" currently out on loan `txnOpen`. -/
def dbBorrowed : DB :=
  { books := [book111], transactions := [txnOpen], users := [7, 8],
    authors := [3] }

/-- Witness for C3: returning the open loan at time 9 closes it with
`return_date = 9`. -/
theorem return_book_spec_witness :
    return_book dbBorrowed 1 9 =
      ({ dbBorrowed with
          transactions := updateFirstTxn 1 9 dbBorrowed.transactions },
       .ok (setReturned 9 txnOpen)) ∧
    (setReturned 9 txnOpen).is_returned = true ∧
    (setReturned 9 txnOpen).return_date = some 9 :=
  (return_book_spec dbBorrowed 1 9).2.2.1 txnOpen (by decide) (by decide)

/-! ### C4 -/

/-- C4 counterexample: with two copies sharing ISBN "222" and copy 2
free, borrowing copy 1 and then borrowing copy 1 again both succeed — the
gate only checks the ISBN-level count — leaving two open loans on the
same copy. -/
theorem one_open_loan_per_copy_cex :
    (create_transaction dbTwoCopies ⟨7, 1, 0⟩).2 =
      .ok { id := 1, user_id := 7, book_id := 1, borrow_date := 0,
            return_date := none, is_returned := false } ∧
    (create_transaction
        (create_transaction dbTwoCopies ⟨7, 1, 0⟩).1 ⟨8, 1, 1⟩).2 =
      .ok { id := 2, user_id := 8, book_id := 1, borrow_date := 1,
            return_date := none, is_returned := false } ∧
    openLoansOnCopy
      (create_transaction
        (create_transaction dbTwoCopies ⟨7, 1, 0⟩).1 ⟨8, 1, 1⟩).1 1 = 2 := by
  decide

/-! ### C5 -/

/-- One copy of "222" in the catalog, empty ledger. -/
def dbOne222 : DB :=
  { books := [book222a], transactions := [], users := [7, 8], authors := [3] }

/-- C5 at its failing input: with one copy of ISBN "222" in the catalog,
creating a second copy with the same ISBN is rejected by the endpoint's
duplicate check (400 "already exists"), so `totalCopies("222")` stays 1 —
contradicting the row-per-copy policy the claim (and `create_book`'s own
docstring, "Multiple copies of the same ISBN are allowed") states. -/
theorem create_copy_duplicate_rejected :
    create_book_endpoint dbOne222 ⟨"Emma", some "222", none, 1, 1, 3, none⟩ =
      (dbOne222, .error .duplicateIsbn) ∧
    isbnCount dbOne222 "222" = 1 ∧
    calculate_total_copies dbOne222 1 = 1 := by
  decide

/-! ### C6 -/

/-- C6 at its failing input: copy 1 exists and has no open loan, yet
`delete_book_endpoint` neither deletes it nor returns a conflict — line
119 of src/api/v1/books/routing.py calls `is_book_borrowed(book)` without
the `db` argument, so every delete of an existing book dies with a
`TypeError` (HTTP 500) and the row survives. -/
theorem delete_book_endpoint_crashes :
    openLoansOnCopy dbOneCopy 1 = 0 ∧
    delete_book_endpoint dbOneCopy 1 = (dbOneCopy, .error .typeError) ∧
    findBook (delete_book_endpoint dbOneCopy 1).1 1 = some book111 := by
  decide

/-! ### C8 -/

/-- The loan of `txnOpen` after being returned at time 9. -/
def txnClosed : Transaction :=
  { id := 1, user_id := 7, book_id := 1, borrow_date := 5,
    return_date := some 9, is_returned := true }

/-- One copy of "111" whose loan has been returned. -/
def dbReturned : DB :=
  { books := [book111], transactions := [txnClosed], users := [7, 8],
    authors := [3] }

/-- C8 counterexample: the administrative PATCH applies whatever fields
it is sent with no precondition, so sending `is_returned = false` to a
closed loan reopens it while its `return_date` stays set — breaking both
the `is_returned ↔ return_date` invariant and "never reopened". -/
theorem loan_invariant_cex :
    (findTxn dbReturned 1).map Transaction.is_returned = some true ∧
    update_transaction dbReturned 1 ⟨none, some false⟩ =
      ({ dbReturned with transactions :=
          [{ id := 1, user_id := 7, book_id := 1, borrow_date := 5,
             return_date := some 9, is_returned := false }] },
       .ok { id := 1, user_id := 7, book_id := 1, borrow_date := 5,
             return_date := some 9, is_returned := false }) := by
  decide

/-- Rewrites `List.find?` on a cons into if-then-else form. -/
theorem find?_cons_eq {α : Type} (p : α → Bool) (a : α) (l : List α) :
    (a :: l).find? p = if p a then some a else l.find? p := by
  by_cases h : p a = true
  · rw [List.find?_cons_of_pos _ h, if_pos h]
  · rw [List.find?_cons_of_neg _ h, if_neg h]

/-- Borrowing never touches the book table. -/
theorem create_transaction_books (db : DB) (d : TransactionCreate) :
    (create_transaction db d).1.books = db.books := by
  unfold create_transaction
  dsimp only
  split_ifs <;> rfl

/-- Returning never touches the book table. -/
theorem return_book_books (db : DB) (tid now : Nat) :
    (return_book db tid now).1.books = db.books := by
  unfold return_book
  cases h : findTxn db tid with
  | none => rfl
  | some t =>
    dsimp only
    by_cases hr : t.is_returned = true
    · rw [if_pos hr]
    · rw [if_neg hr]

/-- No ledger operation touches the book table. -/
theorem applyOps_books (db : DB) (ops : List Op) :
    (applyOps db ops).books = db.books := by
  induction ops generalizing db with
  | nil => rfl
  | cons op rest ih =>
    show (applyOps (applyOp db op) rest).books = db.books
    rw [ih]
    cases op with
    | borrow d => exact create_transaction_books db d
    | ret tid now => exact return_book_books db tid now

/-- The ledger after a borrow: unchanged, or the old ledger with one
fresh open loan appended. -/
theorem create_transaction_transactions (db : DB) (d : TransactionCreate) :
    (create_transaction db d).1.transactions = db.transactions ∨
    (create_transaction db d).1.transactions = db.transactions ++
      [{ id := freshTid db, user_id := d.user_id, book_id := d.book_id,
         borrow_date := d.borrow_date, return_date := none,
         is_returned := false }] := by
  unfold create_transaction
  dsimp only
  split_ifs <;> simp

/-- The ledger after a return: unchanged, or with the first row of the
given id closed. -/
theorem return_book_transactions (db : DB) (tid now : Nat) :
    (return_book db tid now).1.transactions = db.transactions ∨
    (return_book db tid now).1.transactions =
      updateFirstTxn tid now db.transactions := by
  unfold return_book
  cases h : findTxn db tid with
  | none => exact Or.inl rfl
  | some t =>
    dsimp only
    by_cases hr : t.is_returned = true
    · rw [if_pos hr]; exact Or.inl rfl
    · rw [if_neg hr]; exact Or.inr rfl

/-- Every row of the updated ledger is an old row or a closed old row. -/
theorem mem_updateFirstTxn {x : Transaction} (tid now : Nat)
    (l : List Transaction) (hx : x ∈ updateFirstTxn tid now l) :
    x ∈ l ∨ ∃ y ∈ l, x = setReturned now y := by
  induction l with
  | nil => cases hx
  | cons t rest ih =>
    unfold updateFirstTxn at hx
    by_cases h : (t.id == tid) = true
    · rw [if_pos h] at hx
      rcases List.mem_cons.mp hx with h1 | h1
      · exact Or.inr ⟨t, List.mem_cons_self .., h1⟩
      · exact Or.inl (List.mem_cons_of_mem _ h1)
    · rw [if_neg h] at hx
      rcases List.mem_cons.mp hx with h1 | h1
      · exact Or.inl (h1 ▸ List.mem_cons_self ..)
      · rcases ih h1 with h2 | ⟨y, hy, hxy⟩
        · exact Or.inl (List.mem_cons_of_mem _ h2)
        · exact Or.inr ⟨y, List.mem_cons_of_mem _ hy, hxy⟩

/-- Closing the first row with one id does not move `find?` on another. -/
theorem findTxn_updateFirstTxn_ne (l : List Transaction) (tid tid2 now : Nat)
    (h : tid ≠ tid2) :
    (updateFirstTxn tid2 now l).find? (fun t => t.id == tid) =
      l.find? (fun t => t.id == tid) := by
  induction l with
  | nil => rfl
  | cons t rest ih =>
    unfold updateFirstTxn
    by_cases h2 : (t.id == tid2) = true
    · rw [if_pos h2]
      have hne : ((setReturned now t).id == tid) = false := by
        simp only [setReturned]
        simp only [beq_iff_eq] at h2
        simp only [beq_eq_false_iff_ne]
        omega
      have hne' : (t.id == tid) = false := by
        simp only [beq_iff_eq] at h2
        simp only [beq_eq_false_iff_ne]
        omega
      rw [find?_cons_eq, find?_cons_eq]
      simp only [hne, hne', Bool.false_eq_true, if_false]
    · rw [if_neg h2]
      rw [find?_cons_eq, find?_cons_eq, ih]

/-- A closed loan is still present and closed after one ledger op. -/
theorem applyOp_closed_stays (db : DB) (op : Op) (tid : Nat)
    (t : Transaction) (h : findTxn db tid = some t)
    (hc : t.is_returned = true) :
    ∃ u, findTxn (applyOp db op) tid = some u ∧ u.is_returned = true := by
  cases op with
  | borrow d =>
    have happ : (applyOp db (Op.borrow d)).transactions =
        (create_transaction db d).1.transactions := rfl
    rcases create_transaction_transactions db d with hl | hl
    · exact ⟨t, by unfold findTxn; rw [happ, hl]; exact h, hc⟩
    · refine ⟨t, ?_, hc⟩
      unfold findTxn
      rw [happ, hl, List.find?_append]
      unfold findTxn at h
      rw [h]
      rfl
  | ret tid2 now =>
    show ∃ u, findTxn (return_book db tid2 now).1 tid = some u ∧
      u.is_returned = true
    unfold return_book
    cases hf : findTxn db tid2 with
    | none => exact ⟨t, h, hc⟩
    | some s =>
      dsimp only
      by_cases hr : s.is_returned = true
      · rw [if_pos hr]
        exact ⟨t, h, hc⟩
      · rw [if_neg hr]
        by_cases heq : tid = tid2
        · subst heq
          rw [h] at hf
          cases hf
          exact absurd hc hr
        · refine ⟨t, ?_, hc⟩
          unfold findTxn
          dsimp only
          rw [findTxn_updateFirstTxn_ne _ _ _ _ heq]
          exact h

/-- C8 amended: along any sequence of borrow (`create_transaction`) and
return (`return_book`) operations, `is_returned = true` iff `return_date`
is set, and a closed loan is never reopened — but the administrative
`update_transaction` operation the original claim also quantified over
can break both (see the counterexample). -/
theorem loan_state_machine_invariant (db : DB) (ops : List Op)
    (hwf : ∀ t ∈ db.transactions, t.is_returned = true ↔ t.return_date ≠ none) :
    (∀ t ∈ (applyOps db ops).transactions,
      t.is_returned = true ↔ t.return_date ≠ none) ∧
    (∀ tid t, findTxn db tid = some t → t.is_returned = true →
      ∃ u, findTxn (applyOps db ops) tid = some u ∧ u.is_returned = true) := by
  induction ops generalizing db with
  | nil => exact ⟨hwf, fun tid t h hc => ⟨t, h, hc⟩⟩
  | cons op rest ih =>
    have hstep : ∀ t ∈ (applyOp db op).transactions,
        t.is_returned = true ↔ t.return_date ≠ none := by
      intro x hx
      cases op with
      | borrow d =>
        rcases create_transaction_transactions db d with hl | hl
        · exact hwf x (by rw [← hl]; exact hx)
        · rw [show (applyOp db (Op.borrow d)).transactions =
              (create_transaction db d).1.transactions from rfl, hl] at hx
          rcases List.mem_append.mp hx with h1 | h1
          · exact hwf x h1
          · rcases List.mem_singleton.mp h1 with rfl
            simp
      | ret tid now =>
        rcases return_book_transactions db tid now with hl | hl
        · exact hwf x (by rw [show (applyOp db (Op.ret tid now)).transactions =
              (return_book db tid now).1.transactions from rfl, hl] at hx; exact hx)
        · rw [show (applyOp db (Op.ret tid now)).transactions =
              (return_book db tid now).1.transactions from rfl, hl] at hx
          rcases mem_updateFirstTxn _ _ _ hx with h1 | ⟨y, _, rfl⟩
          · exact hwf x h1
          · simp [setReturned]
    refine ⟨(ih (applyOp db op) hstep).1, ?_⟩
    intro tid t h hc
    obtain ⟨u, hu, hcu⟩ := applyOp_closed_stays db op tid t h hc
    exact (ih (applyOp db op) hstep).2 tid u hu hcu

/-- Witness for C8's amended claim: after borrowing the free copy of
"111" on top of a ledger whose loan 1 is closed, loan 1 is still closed. -/
theorem loan_state_machine_invariant_witness :
    ∃ u, findTxn (applyOps dbReturned [Op.borrow ⟨8, 1, 6⟩]) 1 = some u ∧
      u.is_returned = true :=
  (loan_state_machine_invariant dbReturned [Op.borrow ⟨8, 1, 6⟩]
    (by decide)).2 1 txnClosed (by decide) (by decide)

/-- Books are untouched by a single ledger op. -/
theorem applyOp_books (db : DB) (op : Op) : (applyOp db op).books = db.books := by
  cases op with
  | borrow d => exact create_transaction_books db d
  | ret tid now => exact return_book_books db tid now

/-- A duplicate-free list whose elements are all equal to one value has
at most one element. -/
theorem length_le_one_of_nodup_const {α : Type} {l : List α} {k : α}
    (hn : l.Nodup) (hall : ∀ x ∈ l, x = k) : l.length ≤ 1 := by
  match l with
  | [] => simp
  | [x] => simp
  | x :: y :: rest =>
    exfalso
    have hx := hall x (by simp)
    have hy := hall y (by simp)
    rw [List.nodup_cons] at hn
    apply hn.1
    rw [hx, ← hy]
    exact List.mem_cons_self ..

/-- Closing one ledger row can only lower each ISBN's open-loan join. -/
theorem openJoin_sum_updateFirstTxn (books : List Book) (i : String)
    (tid now : Nat) (l : List Transaction) :
    ((updateFirstTxn tid now l).map (openWeight books i)).sum ≤
      (l.map (openWeight books i)).sum := by
  induction l with
  | nil => exact le_refl _
  | cons t rest ih =>
    unfold updateFirstTxn
    by_cases h : (t.id == tid) = true
    · rw [if_pos h]
      simp only [List.map_cons, List.sum_cons]
      have hz : openWeight books i (setReturned now t) = 0 := by
        simp [openWeight, setReturned]
      omega
    · rw [if_neg h]
      simp only [List.map_cons, List.sum_cons]
      omega

/-- A return never increases an ISBN's open-loan join count. -/
theorem openJoinCount_return_le (db : DB) (tid now : Nat) (i : String) :
    openJoinCount (return_book db tid now).1 i ≤ openJoinCount db i := by
  have hb := return_book_books db tid now
  rcases return_book_transactions db tid now with hl | hl <;>
    unfold openJoinCount <;> rw [hb, hl]
  exact openJoin_sum_updateFirstTxn db.books i tid now db.transactions

/-- One ledger operation preserves the ISBN-level bound: the open-loan
join count of each real ISBN stays at most its row count. -/
theorem applyOp_loan_bound (db : DB) (op : Op)
    (hnodup : (db.books.map (fun b => b.id)).Nodup)
    (hinv : ∀ j : String, j ≠ "" → openJoinCount db j ≤ isbnCount db j)
    (i : String) (hi : i ≠ "") :
    openJoinCount (applyOp db op) i ≤ isbnCount (applyOp db op) i := by
  have hcnt : isbnCount (applyOp db op) i = isbnCount db i := by
    unfold isbnCount
    rw [applyOp_books]
  rw [hcnt]
  cases op with
  | ret tid now => exact le_trans (openJoinCount_return_le db tid now i) (hinv i hi)
  | borrow d =>
    show openJoinCount (create_transaction db d).1 i ≤ isbnCount db i
    unfold create_transaction
    dsimp only
    by_cases h1 : calculate_available_copies db d.book_id ≤ 0
    · rw [if_pos h1]; exact hinv i hi
    · rw [if_neg h1]
      by_cases h2 : d.user_id ∉ db.users
      · rw [if_pos h2]; exact hinv i hi
      · rw [if_neg h2]
        cases hfb : findBook db d.book_id with
        | none =>
          rw [if_pos (by rfl)]
          exact hinv i hi
        | some b =>
          rw [if_neg (by simp)]
          have hmem : b ∈ db.books := List.mem_of_find?_eq_some hfb
          have hid : b.id = d.book_id := by
            have hp := List.find?_some hfb
            simpa [beq_iff_eq] using hp
          have hoj : openJoinCount
              { db with transactions := db.transactions ++
                [{ id := freshTid db, user_id := d.user_id,
                   book_id := d.book_id, borrow_date := d.borrow_date,
                   return_date := none, is_returned := false }] } i =
              openJoinCount db i +
              (db.books.filter (fun c => c.id == d.book_id &&
                c.isbn == some i)).length := by
            unfold openJoinCount openWeight
            rw [List.map_append, List.sum_append]
            simp
          rw [hoj]
          by_cases hbi : b.isbn = some i
          · have hflen : (db.books.filter (fun c => c.id == d.book_id &&
                c.isbn == some i)).length ≤ 1 := by
              have hlm : (db.books.filter (fun c => c.id == d.book_id &&
                  c.isbn == some i)).length =
                  ((db.books.filter (fun c => c.id == d.book_id &&
                    c.isbn == some i)).map (fun b => b.id)).length := by
                rw [List.length_map]
              rw [hlm]
              apply length_le_one_of_nodup_const (k := d.book_id)
              · exact hnodup.sublist
                  ((List.filter_sublist db.books).map (fun b => b.id))
              · intro x hx
                rcases List.mem_map.mp hx with ⟨c, hc, rfl⟩
                have hpc := (List.mem_filter.mp hc).2
                simp only [Bool.and_eq_true, beq_iff_eq] at hpc
                exact hpc.1
            have hc1 : 1 ≤ isbnCount db i := by
              have hbm : b ∈ db.books.filter (fun c => c.isbn == some i) :=
                List.mem_filter.mpr ⟨hmem, by simp [hbi]⟩
              exact List.length_pos_of_mem hbm
            have hgate : openJoinCount db i + 1 ≤ isbnCount db i := by
              have h1' := not_le.mp h1
              unfold calculate_available_copies at h1'
              simp only [hfb, hbi] at h1'
              have hblank : isbnBlank (some i) = false := by
                simpa [isbnBlank] using hi
              simp only [hblank, Bool.false_eq_true, if_false] at h1'
              have hT : (if isbnCount db i = 0 then (1 : Int)
                  else (isbnCount db i : Int)) = (isbnCount db i : Int) := by
                rw [if_neg (by omega)]
              rw [hT] at h1'
              have hlt : (openJoinCount db i : Int) < (isbnCount db i : Int) := by
                rcases lt_max_iff.mp h1' with h | h
                · omega
                · omega
              omega
            omega
          · have hflen : (db.books.filter (fun c => c.id == d.book_id &&
                c.isbn == some i)).length = 0 := by
              rw [List.length_eq_zero, List.filter_eq_nil_iff]
              intro c hc hcontra
              simp only [Bool.and_eq_true, beq_iff_eq] at hcontra
              have hcb : c = b :=
                List.inj_on_of_nodup_map hnodup hc hmem
                  (by rw [hcontra.1, hid])
              exact hbi (by rw [← hcb]; exact hcontra.2)
            have := hinv i hi
            omega

/-- C4 amended: what `create_transaction`'s gate actually enforces is an
ISBN-level bound — in every state reachable by borrow/return operations
from a state with duplicate-free copy ids satisfying it, each real
(non-empty) ISBN has at most `isbnCount` open loans across its copies.
The per-copy version of the claim is false: the gate never looks at
which copy a loan names, so one copy can carry several open loans while
siblings of its ISBN are free (see the counterexample). -/
theorem isbn_level_loan_bound (db : DB) (ops : List Op)
    (hnodup : (db.books.map (fun b => b.id)).Nodup)
    (hinv : ∀ j : String, j ≠ "" → openJoinCount db j ≤ isbnCount db j)
    (i : String) (hi : i ≠ "") :
    openJoinCount (applyOps db ops) i ≤ isbnCount (applyOps db ops) i := by
  induction ops generalizing db with
  | nil => exact hinv i hi
  | cons op rest ih =>
    apply ih (applyOp db op)
    · rw [applyOp_books]
      exact hnodup
    · exact fun j hj => applyOp_loan_bound db op hnodup hinv j hj

/-- Witness for C4's amended claim: after one borrow against "222" the
ISBN-level bound holds in the reached state. -/
theorem isbn_level_loan_bound_witness :
    openJoinCount (applyOps dbTwoCopies [Op.borrow ⟨7, 1, 0⟩]) "222" ≤
      isbnCount (applyOps dbTwoCopies [Op.borrow ⟨7, 1, 0⟩]) "222" :=
  isbn_level_loan_bound dbTwoCopies [Op.borrow ⟨7, 1, 0⟩] (by decide)
    (fun j hj => by simp [openJoinCount, dbTwoCopies]) "222" (by decide)

/-- Row lookup only reads fields `eraseCounters` preserves. -/
theorem findBook_proj (db : DB) (bid : Nat) :
    findBook (proj db) bid = (findBook db bid).map eraseCounters := by
  unfold findBook proj
  dsimp only
  rw [List.find?_map]
  rfl

/-- The ISBN row count ignores the stored counters. -/
theorem isbnCount_proj (db : DB) (i : String) :
    isbnCount (proj db) i = isbnCount db i := by
  unfold isbnCount proj
  dsimp only
  rw [List.filter_map, List.length_map]
  rfl

/-- The per-transaction join weight ignores the stored counters. -/
theorem openWeight_erase (books : List Book) (i : String) (t : Transaction) :
    openWeight (books.map eraseCounters) i t = openWeight books i t := by
  unfold openWeight
  by_cases h : t.is_returned = true
  · rw [if_pos h, if_pos h]
  · rw [if_neg h, if_neg h, List.filter_map, List.length_map]
    rfl

/-- The open-loan join count ignores the stored counters. -/
theorem openJoinCount_proj (db : DB) (i : String) :
    openJoinCount (proj db) i = openJoinCount db i := by
  unfold openJoinCount proj
  dsimp only
  have hw : openWeight (db.books.map eraseCounters) i = openWeight db.books i :=
    funext (openWeight_erase db.books i)
  rw [hw]

/-- The function `calculate_total_copies` ignores the stored counters. -/
theorem calculate_total_copies_proj (db : DB) (bid : Nat) :
    calculate_total_copies (proj db) bid = calculate_total_copies db bid := by
  unfold calculate_total_copies
  rw [findBook_proj]
  cases hfb : findBook db bid with
  | none => rfl
  | some b =>
    dsimp only [Option.map, eraseCounters]
    simp only [isbnCount_proj]

/-- The function `calculate_available_copies` ignores the stored counters. -/
theorem calculate_available_copies_proj (db : DB) (bid : Nat) :
    calculate_available_copies (proj db) bid = calculate_available_copies db bid := by
  unfold calculate_available_copies
  rw [findBook_proj]
  cases hfb : findBook db bid with
  | none => rfl
  | some b =>
    dsimp only [Option.map, eraseCounters]
    simp only [isbnCount_proj, openJoinCount_proj]

/-- Borrowing commutes with blanking the stored counters. -/
theorem create_transaction_proj (db : DB) (d : TransactionCreate) :
    create_transaction (proj db) d =
      (proj (create_transaction db d).1, (create_transaction db d).2) := by
  unfold create_transaction
  dsimp only
  rw [calculate_available_copies_proj]
  by_cases c1 : calculate_available_copies db d.book_id ≤ 0
  · rw [if_pos c1, if_pos c1]
  · rw [if_neg c1, if_neg c1]
    have hu : (proj db).users = db.users := rfl
    rw [hu]
    by_cases c2 : d.user_id ∉ db.users
    · rw [if_pos c2, if_pos c2]
    · rw [if_neg c2, if_neg c2]
      rw [findBook_proj]
      have hmap : ((findBook db d.book_id).map eraseCounters).isNone =
          (findBook db d.book_id).isNone := by
        cases findBook db d.book_id <;> rfl
      rw [hmap]
      by_cases c3 : (findBook db d.book_id).isNone = true
      · rw [if_pos c3, if_pos c3]
      · rw [if_neg c3, if_neg c3]
        rfl

/-- C10: the stored counter columns on book rows never influence the
availability engine or the borrow gate — states agreeing on everything
except those columns give equal `calculate_total_copies`,
`calculate_available_copies` and `check_book_availability` results, and
`create_transaction` returns equal outcomes and post-states that again
agree up to the counters. -/
theorem stored_counters_noninterference (db1 db2 : DB)
    (h : proj db1 = proj db2) :
    (∀ bid, calculate_total_copies db1 bid = calculate_total_copies db2 bid) ∧
    (∀ bid, calculate_available_copies db1 bid =
      calculate_available_copies db2 bid) ∧
    (∀ b1 b2 : Book, eraseCounters b1 = eraseCounters b2 →
      check_book_availability db1 b1 = check_book_availability db2 b2) ∧
    (∀ d : TransactionCreate,
      (create_transaction db1 d).2 = (create_transaction db2 d).2 ∧
      proj (create_transaction db1 d).1 = proj (create_transaction db2 d).1) := by
  have htot : ∀ bid, calculate_total_copies db1 bid =
      calculate_total_copies db2 bid := by
    intro bid
    rw [← calculate_total_copies_proj db1, ← calculate_total_copies_proj db2, h]
  have havail : ∀ bid, calculate_available_copies db1 bid =
      calculate_available_copies db2 bid := by
    intro bid
    rw [← calculate_available_copies_proj db1,
      ← calculate_available_copies_proj db2, h]
  refine ⟨htot, havail, ?_, ?_⟩
  · intro b1 b2 hb
    have hid : b1.id = b2.id := by
      have h' := congrArg Book.id hb
      simpa [eraseCounters] using h'
    have htitle : b1.title = b2.title := by
      have h' := congrArg Book.title hb
      simpa [eraseCounters] using h'
    unfold check_book_availability
    dsimp only
    rw [hid, htitle, htot b2.id, havail b2.id]
  · intro d
    have h1 := create_transaction_proj db1 d
    have h2 := create_transaction_proj db2 d
    rw [h] at h1
    have heq := h1.symm.trans h2
    rw [Prod.mk.injEq] at heq
    exact ⟨heq.2, heq.1⟩

/-- The state `dbOneCopy` with its stored counter columns replaced by garbage. -/
def dbOneCopyStale : DB :=
  { books := [{ book111 with total_copies := 99, available_copies := 0 }],
    transactions := [], users := [7, 8], authors := [3] }

/-- Witness for C10: derived availability is identical whether the
stored counters say 1/1 or 99/0. -/
theorem stored_counters_noninterference_witness :
    calculate_available_copies dbOneCopy 1 =
      calculate_available_copies dbOneCopyStale 1 :=
  (stored_counters_noninterference dbOneCopy dbOneCopyStale (by decide)).2.1 1

end LibraryMS
